import Mathlib

/-!
# jscallglue: placing a function call record into the `<jscall>` mailbox

A shallow embedding of `src/jscall/jscallglue/jscallglue.cpp`.

The C++ code drives the XPCOM DOM through `nsIDOMDocument`, `nsIDOMNodeList`,
`nsIDOMElement` and `nsIDOMNode`.  The DOM itself is a library outside the
repository, so it is modelled here:

* the document is a tree of text and element nodes; a node inside it is
  addressed by the list of child indices that leads to it;
* every XPCOM call made by the code gets its `nsresult` (and, where the code
  tests the out-pointer, whether that pointer came back null) from a record
  `XpcomResults` that the theorems quantify over, so that every combination of
  failures is covered;
* a call that reports failure has no effect on the tree or on the element it
  was applied to;
* dereferencing a null `nsCOMPtr` does not return to the caller: it is the
  fault `Fault.nullDereference`.
-/

namespace JsCallGlue

/-! ## The DOM tree -/

/-- A DOM node: character data, or an element with its tag name, its attributes
in the order they were set, and its children in document order. -/
inductive Node where
  | text (data : String)
  | element (tagName : String) (attributes : List (String × String)) (childNodes : List Node)

/-- The address of a node inside a document: the child index to follow at each
level, starting from the document's own children. -/
abbrev NodePath := List Nat

/-- The live document tree owned by the embedding. -/
structure Document where
  childNodes : List Node

/-- The value of `nsIDOMNodeList`: the matching elements, in document order. -/
abbrev NodeList := List NodePath

mutual
/-- Addresses, relative to `n`, of the elements in the subtree of `n` (itself
included) whose tag name is `tag`, in document order (preorder). -/
def elementsByTagName (tag : String) : Node → List NodePath
  | .text _ => []
  | .element t _ cs =>
      (if t = tag then [[]] else []) ++ elementsByTagNameList tag 0 cs
/-- Addresses of the elements with tag name `tag` in the sibling list `ns`,
whose first member has child index `i`. -/
def elementsByTagNameList (tag : String) (i : Nat) : List Node → List NodePath
  | [] => []
  | n :: ns =>
      (elementsByTagName tag n).map (i :: ·) ++ elementsByTagNameList tag (i + 1) ns
end

mutual
/-- The children of the node at address `p` below `n`; `none` when `p` does
not lead to an element. -/
def childNodesAt : Node → NodePath → Option (List Node)
  | .text _, _ => none
  | .element _ _ cs, [] => some cs
  | .element _ _ cs, i :: p => childNodesAtList cs i p
/-- The children of the node reached from the sibling list by taking its
`i`-th member and then following `p`. -/
def childNodesAtList : List Node → Nat → NodePath → Option (List Node)
  | [], _, _ => none
  | n :: _, 0, p => childNodesAt n p
  | _ :: ns, i + 1, p => childNodesAtList ns i p
end

mutual
/-- The tree `n` with `child` added as the last child of the element at address
`p`; `none` when `p` does not lead to an element. -/
def appendChildAt (child : Node) : Node → NodePath → Option Node
  | .text _, _ => none
  | .element t as cs, [] => some (.element t as (cs ++ [child]))
  | .element t as cs, i :: p => (appendChildAtList child cs i p).map (.element t as)
/-- The sibling list with `child` added as the last child of the element
reached by taking the `i`-th member and then following `p`. -/
def appendChildAtList (child : Node) : List Node → Nat → NodePath → Option (List Node)
  | [], _, _ => none
  | n :: ns, 0, p => (appendChildAt child n p).map (· :: ns)
  | n :: ns, i + 1, p => (appendChildAtList child ns i p).map (n :: ·)
end

/-- The children of the node at address `p` of the document. -/
def Document.childNodesOf (doc : Document) : NodePath → Option (List Node)
  | [] => none
  | i :: p => childNodesAtList doc.childNodes i p

/-- The document with `child` added as the last child of the element at `p`. -/
def Document.appendChildTo (doc : Document) (child : Node) : NodePath → Option Document
  | [] => none
  | i :: p => (appendChildAtList child doc.childNodes i p).map Document.mk

/-- The attribute list after `setAttribute(name, value)`: an attribute of that
name gets the new value in place, otherwise the attribute is added last. -/
def setAttributeValue (attrs : List (String × String)) (name value : String) :
    List (String × String) :=
  if attrs.any (fun a => a.1 == name) then
    attrs.map (fun a => if a.1 == name then (name, value) else a)
  else attrs ++ [(name, value)]

/-! ## XPCOM results -/

/-- An XPCOM status code, a 32-bit value. -/
abbrev nsresult := Nat

/-- The success code. -/
def NS_OK : nsresult := 0

/-- The generic failure code. -/
def NS_ERROR_FAILURE : nsresult := 0x80004005

/-- The `NS_FAILED` test: the severity bit (bit 31) of the code is set. -/
def NS_FAILED (rv : nsresult) : Bool := decide (2 ^ 31 ≤ rv % 2 ^ 32)

/-- What the XPCOM calls made by one run of `PlaceFunctionCall` report: the
`nsresult` of each call and, for each out-pointer or cast the code tests or
dereferences, whether it came back null. -/
structure XpcomResults where
  getElementsByTagName : nsresult
  nodesNull : Bool
  getLength : nsresult
  item : nsresult
  itemNull : Bool
  createElement : nsresult
  elementNull : Bool
  setAttributeCall : nsresult
  setAttributeReturnto : nsresult
  setAttributeArgs : nsresult
  queryInterfaceNull : Bool
  appendChild : nsresult

/-- The code never returns to its caller. -/
inductive Fault where
  | nullDereference
  deriving DecidableEq

/-- The `operator->` of `nsCOMPtr`: a null pointer cannot be dereferenced. -/
def deref {α : Type} : Option α → Except Fault α
  | none => .error .nullDereference
  | some a => .ok a

/-- The conversion of a caller string for the DOM. Both sides are encodings of
the same text, and text is what `String` holds. -/
def NS_ConvertUTF8toUTF16 (s : String) : String := s

/-- The out-pointer of `nsIDOMDocument::GetElementsByTagName`. -/
def Document.GetElementsByTagName (doc : Document) (env : XpcomResults) (tag : String) :
    Option NodeList :=
  if env.nodesNull then none else some (elementsByTagNameList tag 0 doc.childNodes)

/-- The length `nsIDOMNodeList::GetLength` stores: the number of nodes in the
list. The count is the DOM's own and the code does no arithmetic on it. -/
def GetLength (nodes : NodeList) : Nat := nodes.length

/-- The out-pointer of `nsIDOMNodeList::Item`. -/
def Item (env : XpcomResults) (nodes : NodeList) (index : Nat) : Option NodePath :=
  if env.itemNull then none else nodes.get? index

/-- The out-pointer of `nsIDOMDocument::CreateElement`: a new element with no
attribute and no child, not attached to the tree. -/
def CreateElement (env : XpcomResults) (tag : String) : Option Node :=
  if env.elementNull then none else some (.element tag [] [])

/-- The element after `nsIDOMElement::SetAttribute` reported `rv`. -/
def SetAttribute (rv : nsresult) (el : Node) (name value : String) : Node :=
  if NS_FAILED rv then el else
  match el with
  | .text d => .text d
  | .element t as cs => .element t (setAttributeValue as name value) cs

/-- The `do_QueryInterface` cast of the element to `nsIDOMNode`. -/
def do_QueryInterface (env : XpcomResults) (el : Node) : Option Node :=
  if env.queryInterfaceNull then none else some el

/-- The result and the document after `nsIDOMNode::AppendChild` on the node at
`parent`. The call has no effect when it reports failure, and it fails when
`parent` is not an element of the document. -/
def AppendChild (rv : nsresult) (doc : Document) (parent : NodePath) (child : Node) :
    nsresult × Document :=
  if NS_FAILED rv then (rv, doc) else
  match doc.appendChildTo child parent with
  | some doc2 => (rv, doc2)
  | none => (NS_ERROR_FAILURE, doc)

/-! ## The embedding handle -/

/-- The content window of the browser and the document it shows, if any. -/
structure DOMWindow where
  document : Option Document

/-- The browser of an embedding widget and its content window, if any. -/
structure WebBrowser where
  contentDOMWindow : Option DOMWindow

/-- The embedding widget and its browser, if it has one yet. -/
structure GtkMozEmbed where
  webBrowser : Option WebBrowser

/-- An embedding whose page is loaded and shows `doc`. -/
def GtkMozEmbed.showing (doc : Document) : GtkMozEmbed :=
  ⟨some ⟨some ⟨some doc⟩⟩⟩

/-! ## The code -/

/-- Gets the browser's document (`GetIDOMDocument`). The browser and the window
are dereferenced unchecked; the document pointer is returned as it is. -/
def GetIDOMDocument (embed : GtkMozEmbed) : Except Fault (Option Document) :=
  match deref embed.webBrowser with
  | .error f => .error f
  | .ok browser =>
    match deref browser.contentDOMWindow with
    | .error f => .error f
    | .ok domWindow => .ok domWindow.document

/-- Places an `<infunction call="..." returnto="..." args="..."/>` element in
the `<jscall>` element (`PlaceFunctionCall`). The result is the returned status
together with the document tree after the call. -/
def PlaceFunctionCall (env : XpcomResults) (embed : GtkMozEmbed)
    (call returnto args : String) : Except Fault (Int × Document) :=
  match GetIDOMDocument embed with
  | .error f => .error f
  | .ok doc =>
  -- get the "jscall" node
  match deref doc with
  | .error f => .error f
  | .ok d =>
  let nodes := d.GetElementsByTagName env (NS_ConvertUTF8toUTF16 "jscall")
  let result := env.getElementsByTagName
  if NS_FAILED result || nodes.isNone then .ok (1, d) else
  match deref nodes with
  | .error f => .error f
  | .ok nodeList =>
  let length := GetLength nodeList
  let result := env.getLength
  if NS_FAILED result then .ok (2, d) else
  if length != 1 then .ok (3, d) else
  let jscall := Item env nodeList 0
  let result := env.item
  if NS_FAILED result || jscall.isNone then .ok (4, d) else
  -- add an "infunction" node
  let infunction := CreateElement env (NS_ConvertUTF8toUTF16 "infunction")
  let result := env.createElement
  if NS_FAILED result || infunction.isNone then .ok (5, d) else
  match deref infunction with
  | .error f => .error f
  | .ok el0 =>
  -- add the properties
  let result := env.setAttributeCall
  let el1 := SetAttribute result el0 (NS_ConvertUTF8toUTF16 "call") (NS_ConvertUTF8toUTF16 call)
  let result := env.setAttributeReturnto
  let el2 := SetAttribute result el1 (NS_ConvertUTF8toUTF16 "returnto")
    (NS_ConvertUTF8toUTF16 returnto)
  let result := env.setAttributeArgs
  let el3 := SetAttribute result el2 (NS_ConvertUTF8toUTF16 "args") (NS_ConvertUTF8toUTF16 args)
  if NS_FAILED result then .ok (6, d) else
  -- append it to the jscall node
  let domNodeInfunction := do_QueryInterface env el3
  match domNodeInfunction with
  | none => .ok (7, d)
  | some child =>
  match deref jscall with
  | .error f => .error f
  | .ok anchor =>
  let (result, d2) := AppendChild env.appendChild d anchor child
  if NS_FAILED result || jscall.isNone then .ok (8, d2) else
  .ok (0, d2)

/-- The status a run returned, if it returned. -/
def returnedStatus : Except Fault (Int × Document) → Option Int
  | .error _ => none
  | .ok (status, _) => some status

/-- The `<infunction>` record a fully successful placement builds. -/
def infunctionRecord (call returnto args : String) : Node :=
  .element "infunction" [("call", call), ("returnto", returnto), ("args", args)] []

/-- Successive placements on one embedding, each seeing the tree the previous
one left: the statuses returned, in order, and the final tree. A placement that
faults ends the run. -/
def placeCalls (env : XpcomResults) :
    Document → List (String × String × String) → Except Fault (List Int × Document)
  | doc, [] => .ok ([], doc)
  | doc, (call, returnto, args) :: rest =>
    match PlaceFunctionCall env (GtkMozEmbed.showing doc) call returnto args with
    | .error f => .error f
    | .ok (status, doc2) =>
      match placeCalls env doc2 rest with
      | .error f => .error f
      | .ok (statuses, doc3) => .ok (status :: statuses, doc3)

/-- Every XPCOM call of a run succeeds and hands back a non-null pointer. -/
def XpcomResults.allSucceed (env : XpcomResults) : Prop :=
  NS_FAILED env.getElementsByTagName = false ∧ env.nodesNull = false ∧
  NS_FAILED env.getLength = false ∧
  NS_FAILED env.item = false ∧ env.itemNull = false ∧
  NS_FAILED env.createElement = false ∧ env.elementNull = false ∧
  NS_FAILED env.setAttributeCall = false ∧
  NS_FAILED env.setAttributeReturnto = false ∧
  NS_FAILED env.setAttributeArgs = false ∧
  env.queryInterfaceNull = false ∧
  NS_FAILED env.appendChild = false

/-- The results of a run in which every call reports `NS_OK`. -/
def okResults : XpcomResults :=
  { getElementsByTagName := NS_OK, nodesNull := false, getLength := NS_OK,
    item := NS_OK, itemNull := false, createElement := NS_OK, elementNull := false,
    setAttributeCall := NS_OK, setAttributeReturnto := NS_OK, setAttributeArgs := NS_OK,
    queryInterfaceNull := false, appendChild := NS_OK }

/-- A page whose body holds an empty `<jscall>` mailbox. -/
def emptyMailboxDoc : Document :=
  ⟨[.element "html" [] [.element "body" [] [.text "hello", .element "jscall" [] []]]]⟩

/-- A page with no `<jscall>` element. -/
def noMailboxDoc : Document :=
  ⟨[.element "html" [] [.element "body" [] [.text "hello"]]]⟩

/-- A page with two `<jscall>` elements. -/
def twoMailboxDoc : Document :=
  ⟨[.element "html" [] [.element "body" [] [.element "jscall" [] [], .element "jscall" [] []]]]⟩

/-- The element `PlaceFunctionCall` has built when it reaches the append: a new
`<infunction>` on which the three attributes were set, in the order `call`,
`returnto`, `args`, each with the result the environment reports. -/
def builtElement (env : XpcomResults) (call returnto args : String) : Node :=
  SetAttribute env.setAttributeArgs
    (SetAttribute env.setAttributeReturnto
      (SetAttribute env.setAttributeCall (.element "infunction" [] []) "call" call)
      "returnto" returnto)
    "args" args

/-- Every XPCOM call whose result the code tests before the append succeeds:
the run reaches `AppendChild`. -/
def XpcomResults.reachesAppend (env : XpcomResults) : Prop :=
  NS_FAILED env.getElementsByTagName = false ∧ env.nodesNull = false ∧
  NS_FAILED env.getLength = false ∧
  NS_FAILED env.item = false ∧ env.itemNull = false ∧
  NS_FAILED env.createElement = false ∧ env.elementNull = false ∧
  NS_FAILED env.setAttributeArgs = false ∧
  env.queryInterfaceNull = false

/-- The results of a run in which only the assignment of `call` fails. -/
def callFailsResults : XpcomResults :=
  { okResults with setAttributeCall := NS_ERROR_FAILURE }

/-- The results of a run in which only the assignment of `returnto` fails. -/
def returntoFailsResults : XpcomResults :=
  { okResults with setAttributeReturnto := NS_ERROR_FAILURE }

/-- The results of a run in which only the assignment of `args` fails. -/
def argsFailsResults : XpcomResults :=
  { okResults with setAttributeArgs := NS_ERROR_FAILURE }

/-- The results of a run in which only the append fails. -/
def appendFailsResults : XpcomResults :=
  { okResults with appendChild := NS_ERROR_FAILURE }

/-- The address of the `<jscall>` element in `emptyMailboxDoc`. -/
def emptyMailboxAnchor : NodePath := [0, 0, 1]

/-- An embedding that has no browser yet. -/
def noBrowserEmbed : GtkMozEmbed := ⟨none⟩

/-- An embedding whose browser has no content window yet. -/
def noWindowEmbed : GtkMozEmbed := ⟨some ⟨none⟩⟩

/-- An embedding whose content window has no document yet. -/
def noDocumentEmbed : GtkMozEmbed := ⟨some ⟨some ⟨none⟩⟩⟩

/-! ## Facts about the tree operations -/

theorem elementsByTagNameList_append (tag : String) (xs ys : List Node) (i : Nat) :
    elementsByTagNameList tag i (xs ++ ys)
      = elementsByTagNameList tag i xs ++ elementsByTagNameList tag (i + xs.length) ys := by
  induction xs generalizing i with
  | nil => simp [elementsByTagNameList]
  | cons x xs ih =>
    have e : i + 1 + xs.length = i + (xs.length + 1) := by omega
    rw [List.cons_append]
    simp only [elementsByTagNameList, List.length_cons, List.append_assoc]
    rw [ih (i + 1), e]

mutual
theorem appendChildAt_elementsByTagName (tag : String) (c : Node)
    (hc : elementsByTagName tag c = []) :
    ∀ (n : Node) (p : NodePath) (n2 : Node), appendChildAt c n p = some n2 →
      elementsByTagName tag n2 = elementsByTagName tag n
  | .text _, _, _, h => by simp [appendChildAt] at h
  | .element t as cs, [], n2, h => by
    simp only [appendChildAt, Option.some.injEq] at h
    subst h
    simp [elementsByTagName, elementsByTagNameList_append, elementsByTagNameList, hc]
  | .element t as cs, i :: p, n2, h => by
    simp only [appendChildAt, Option.map_eq_some'] at h
    obtain ⟨cs2, hcs, rfl⟩ := h
    simp only [elementsByTagName]
    rw [appendChildAtList_elementsByTagNameList tag c hc cs i p cs2 0 hcs]
theorem appendChildAtList_elementsByTagNameList (tag : String) (c : Node)
    (hc : elementsByTagName tag c = []) :
    ∀ (ns : List Node) (i : Nat) (p : NodePath) (ns2 : List Node) (k : Nat),
      appendChildAtList c ns i p = some ns2 →
      elementsByTagNameList tag k ns2 = elementsByTagNameList tag k ns
  | [], _, _, _, _, h => by simp [appendChildAtList] at h
  | n :: ns, 0, p, ns2, k, h => by
    simp only [appendChildAtList, Option.map_eq_some'] at h
    obtain ⟨m, hm, rfl⟩ := h
    simp only [elementsByTagNameList]
    rw [appendChildAt_elementsByTagName tag c hc n p m hm]
  | n :: ns, i + 1, p, ns2, k, h => by
    simp only [appendChildAtList, Option.map_eq_some'] at h
    obtain ⟨m, hm, rfl⟩ := h
    simp only [elementsByTagNameList]
    rw [appendChildAtList_elementsByTagNameList tag c hc ns i p m (k + 1) hm]
end

mutual
theorem appendChildAt_of_mem (tag : String) (c : Node) :
    ∀ (n : Node) (p : NodePath), p ∈ elementsByTagName tag n →
      ∃ cs n2, childNodesAt n p = some cs ∧ appendChildAt c n p = some n2 ∧
        childNodesAt n2 p = some (cs ++ [c])
  | .text _, _, h => by simp [elementsByTagName] at h
  | .element t as cs, [], _ => ⟨cs, .element t as (cs ++ [c]), by simp only [childNodesAt],
      by simp only [appendChildAt], by simp only [childNodesAt]⟩
  | .element t as cs, i :: p, h => by
    have h2 : i :: p ∈ elementsByTagNameList tag 0 cs := by
      simp only [elementsByTagName, List.mem_append] at h
      rcases h with h | h
      · split at h <;> simp at h
      · exact h
    obtain ⟨j, q, hq, ds, cs2, h3, h4, h5⟩ := appendChildAtList_of_mem tag c cs 0 (i :: p) h2
    simp only [List.cons.injEq, Nat.zero_add] at hq
    obtain ⟨rfl, rfl⟩ := hq
    exact ⟨ds, .element t as cs2, by simpa [childNodesAt] using h3,
      by simp [appendChildAt, h4], by simpa [childNodesAt] using h5⟩
theorem appendChildAtList_of_mem (tag : String) (c : Node) :
    ∀ (ns : List Node) (k : Nat) (q : NodePath), q ∈ elementsByTagNameList tag k ns →
      ∃ j p, q = (k + j) :: p ∧ ∃ cs ns2, childNodesAtList ns j p = some cs ∧
        appendChildAtList c ns j p = some ns2 ∧ childNodesAtList ns2 j p = some (cs ++ [c])
  | [], _, _, h => by simp [elementsByTagNameList] at h
  | n :: ns, k, q, h => by
    simp only [elementsByTagNameList, List.mem_append, List.mem_map] at h
    rcases h with ⟨p, hp, rfl⟩ | h
    · obtain ⟨cs, n2, h3, h4, h5⟩ := appendChildAt_of_mem tag c n p hp
      exact ⟨0, p, by simp, cs, n2 :: ns, by simpa [childNodesAtList] using h3,
        by simp [appendChildAtList, h4], by simpa [childNodesAtList] using h5⟩
    · obtain ⟨j, p, rfl, cs, ns2, h3, h4, h5⟩ := appendChildAtList_of_mem tag c ns (k + 1) q h
      exact ⟨j + 1, p, by simp; omega, cs, n :: ns2, by simpa [childNodesAtList] using h3,
        by simp [appendChildAtList, h4], by simpa [childNodesAtList] using h5⟩
end

/-- An element found by the tag query can be appended to, and its child list
afterwards is the old one followed by the new child. -/
theorem Document.appendChildTo_of_mem (doc : Document) (tag : String) (c : Node) (p : NodePath)
    (hp : p ∈ elementsByTagNameList tag 0 doc.childNodes) :
    ∃ cs doc2, doc.childNodesOf p = some cs ∧ doc.appendChildTo c p = some doc2 ∧
      doc2.childNodesOf p = some (cs ++ [c]) := by
  obtain ⟨j, q, rfl, cs, ns2, h3, h4, h5⟩ := appendChildAtList_of_mem tag c doc.childNodes 0 p hp
  refine ⟨cs, ⟨ns2⟩, ?_, ?_, ?_⟩
  · simpa [Document.childNodesOf] using h3
  · simp [Document.appendChildTo, h4]
  · simpa [Document.childNodesOf] using h5

/-- Appending a child that holds no element of tag `tag` leaves the result of
the tag query as it was. -/
theorem Document.appendChildTo_elementsByTagName (doc doc2 : Document) (tag : String)
    (c : Node) (p : NodePath) (hc : elementsByTagName tag c = [])
    (h : doc.appendChildTo c p = some doc2) :
    elementsByTagNameList tag 0 doc2.childNodes = elementsByTagNameList tag 0 doc.childNodes := by
  cases p with
  | nil => simp [Document.appendChildTo] at h
  | cons i p =>
    simp only [Document.appendChildTo, Option.map_eq_some'] at h
    obtain ⟨ns2, h2, rfl⟩ := h
    exact appendChildAtList_elementsByTagNameList tag c hc doc.childNodes i p ns2 0 h2

/-! ## Facts about the XPCOM model -/

theorem NS_FAILED_NS_ERROR_FAILURE : NS_FAILED NS_ERROR_FAILURE = true := by decide

theorem AppendChild_failed (rv : nsresult) (doc : Document) (p : NodePath) (c : Node)
    (h : NS_FAILED (AppendChild rv doc p c).1 = true) : (AppendChild rv doc p c).2 = doc := by
  unfold AppendChild at *
  split
  · rfl
  · split
    · rename_i h1 _ _ _
      simp [h1] at h
      split at h <;> simp_all [NS_FAILED_NS_ERROR_FAILURE]
    · rfl

theorem AppendChild_succeeded (rv : nsresult) (doc : Document) (p : NodePath) (c : Node)
    (h : NS_FAILED (AppendChild rv doc p c).1 = false) :
    NS_FAILED rv = false ∧ doc.appendChildTo c p = some (AppendChild rv doc p c).2 := by
  unfold AppendChild at *
  split
  · rename_i h1
    simp [h1] at h
  · rename_i h1
    simp only [h1, Bool.false_eq_true, if_false] at h
    split
    · rename_i h2
      exact ⟨by simpa using h1, h2⟩
    · rename_i h2
      simp [h2, NS_FAILED_NS_ERROR_FAILURE] at h

theorem GetIDOMDocument_showing (doc : Document) :
    GetIDOMDocument (GtkMozEmbed.showing doc) = .ok (some doc) := rfl

/-! ## Anchor cardinality -/

/-- C2. In a resolvable document where the tag query and the length query
succeed and the number of `<jscall>` elements is not 1, `PlaceFunctionCall`
returns 3 and the document tree is the one before the call. -/
theorem PlaceFunctionCall_cardinality (env : XpcomResults) (embed : GtkMozEmbed)
    (doc : Document) (call returnto args : String)
    (hdoc : GetIDOMDocument embed = .ok (some doc))
    (hquery : NS_FAILED env.getElementsByTagName = false) (hnodes : env.nodesNull = false)
    (hlength : NS_FAILED env.getLength = false)
    (hcount : (elementsByTagNameList "jscall" 0 doc.childNodes).length ≠ 1) :
    PlaceFunctionCall env embed call returnto args = .ok (3, doc) := by
  simp [PlaceFunctionCall, hdoc, deref, Document.GetElementsByTagName, GetLength,
    NS_ConvertUTF8toUTF16, hquery, hnodes, hlength, hcount]

/-! ## The run on a resolved document -/

/-- The run of `PlaceFunctionCall` on a document that resolves, as a chain of
tests on what the XPCOM calls report. -/
theorem PlaceFunctionCall_resolved (env : XpcomResults) (embed : GtkMozEmbed) (d : Document)
    (call returnto args : String) (hdoc : GetIDOMDocument embed = .ok (some d)) :
    PlaceFunctionCall env embed call returnto args =
      if NS_FAILED env.getElementsByTagName = true ∨ env.nodesNull = true then .ok (1, d)
      else if NS_FAILED env.getLength = true then .ok (2, d)
      else match elementsByTagNameList "jscall" 0 d.childNodes with
        | [anchor] =>
          if NS_FAILED env.item = true ∨ env.itemNull = true then .ok (4, d)
          else if NS_FAILED env.createElement = true ∨ env.elementNull = true then .ok (5, d)
          else if NS_FAILED env.setAttributeArgs = true then .ok (6, d)
          else if env.queryInterfaceNull = true then .ok (7, d)
          else if NS_FAILED (AppendChild env.appendChild d anchor
              (builtElement env call returnto args)).1 = true
            then .ok (8, (AppendChild env.appendChild d anchor
              (builtElement env call returnto args)).2)
            else .ok (0, (AppendChild env.appendChild d anchor
              (builtElement env call returnto args)).2)
        | _ => .ok (3, d) := by
  unfold PlaceFunctionCall
  rw [hdoc]
  simp only [deref, NS_ConvertUTF8toUTF16, Document.GetElementsByTagName, GetLength, Item,
    CreateElement, do_QueryInterface, builtElement]
  by_cases h1 : NS_FAILED env.getElementsByTagName = true
  · simp [h1]
  by_cases h2 : env.nodesNull = true
  · simp [h2]
  by_cases h3 : NS_FAILED env.getLength = true
  · simp [h1, h2, h3]
  rcases hl : elementsByTagNameList "jscall" 0 d.childNodes with _ | ⟨anchor, _ | ⟨b, l⟩⟩
  · simp [h1, h2, h3]
  · by_cases h4 : NS_FAILED env.item = true
    · simp [h1, h2, h3, h4]
    by_cases h5 : env.itemNull = true
    · simp [h1, h2, h3, h4, h5]
    by_cases h6 : NS_FAILED env.createElement = true
    · simp [h1, h2, h3, h4, h5, h6]
    by_cases h7 : env.elementNull = true
    · simp [h1, h2, h3, h4, h5, h6, h7]
    by_cases h8 : NS_FAILED env.setAttributeArgs = true
    · simp [h1, h2, h3, h4, h5, h6, h7, h8]
    by_cases h9 : env.queryInterfaceNull = true
    · simp [h1, h2, h3, h4, h5, h6, h7, h8, h9]
    simp [h1, h2, h3, h4, h5, h6, h7, h8, h9]
  · simp [h1, h2, h3]

theorem builtElement_shape (env : XpcomResults) (call returnto args : String) :
    ∃ attrs, builtElement env call returnto args = .element "infunction" attrs [] := by
  unfold builtElement SetAttribute
  split_ifs <;> simp

theorem builtElement_allSucceed (env : XpcomResults) (call returnto args : String)
    (henv : env.allSucceed) :
    builtElement env call returnto args = infunctionRecord call returnto args := by
  obtain ⟨-, -, -, -, -, -, -, h1, h2, h3, -, -⟩ := henv
  simp [builtElement, SetAttribute, h1, h2, h3, setAttributeValue, infunctionRecord]

theorem elementsByTagName_builtElement (env : XpcomResults) (call returnto args : String) :
    elementsByTagName "jscall" (builtElement env call returnto args) = [] := by
  obtain ⟨attrs, h⟩ := builtElement_shape env call returnto args
  rw [h]
  simp [elementsByTagName, elementsByTagNameList]

theorem XpcomResults.allSucceed.reachesAppend {env : XpcomResults} (h : env.allSucceed) :
    env.reachesAppend := by
  obtain ⟨h1, h2, h3, h4, h5, h6, h7, -, -, h10, h11, -⟩ := h
  exact ⟨h1, h2, h3, h4, h5, h6, h7, h10, h11⟩

/-- A run that reaches the append returns 8 or 0 according to what the append
reports. -/
theorem PlaceFunctionCall_reachesAppend (env : XpcomResults) (embed : GtkMozEmbed)
    (doc : Document) (anchor : NodePath) (call returnto args : String)
    (hdoc : GetIDOMDocument embed = .ok (some doc))
    (hone : elementsByTagNameList "jscall" 0 doc.childNodes = [anchor])
    (henv : env.reachesAppend) :
    PlaceFunctionCall env embed call returnto args =
      if NS_FAILED (AppendChild env.appendChild doc anchor
          (builtElement env call returnto args)).1 = true
        then .ok (8, (AppendChild env.appendChild doc anchor
          (builtElement env call returnto args)).2)
        else .ok (0, (AppendChild env.appendChild doc anchor
          (builtElement env call returnto args)).2) := by
  obtain ⟨h1, h2, h3, h4, h5, h6, h7, h8, h9⟩ := henv
  rw [PlaceFunctionCall_resolved env embed doc call returnto args hdoc]
  simp [h1, h2, h3, h4, h5, h6, h7, h8, h9, hone]

/-- A run that reaches the append, on a single anchor, with the append
succeeding: status 0 and the built element is the anchor's new last child. -/
theorem PlaceFunctionCall_appended (env : XpcomResults) (embed : GtkMozEmbed)
    (doc : Document) (anchor : NodePath) (call returnto args : String)
    (hdoc : GetIDOMDocument embed = .ok (some doc))
    (hone : elementsByTagNameList "jscall" 0 doc.childNodes = [anchor])
    (henv : env.reachesAppend) (happend : NS_FAILED env.appendChild = false) :
    ∃ cs doc2, doc.childNodesOf anchor = some cs ∧
      doc.appendChildTo (builtElement env call returnto args) anchor = some doc2 ∧
      PlaceFunctionCall env embed call returnto args = .ok (0, doc2) ∧
      doc2.childNodesOf anchor = some (cs ++ [builtElement env call returnto args]) ∧
      elementsByTagNameList "jscall" 0 doc2.childNodes = [anchor] := by
  have hmem : anchor ∈ elementsByTagNameList "jscall" 0 doc.childNodes := by simp [hone]
  obtain ⟨cs, doc2, h1, h2, h3⟩ :=
    doc.appendChildTo_of_mem "jscall" (builtElement env call returnto args) anchor hmem
  refine ⟨cs, doc2, h1, h2, ?_, h3, ?_⟩
  · rw [PlaceFunctionCall_reachesAppend env embed doc anchor call returnto args hdoc hone henv]
    simp [AppendChild, happend, h2]
  · rw [doc.appendChildTo_elementsByTagName doc2 "jscall" _ anchor
      (elementsByTagName_builtElement env call returnto args) h2, hone]

/-! ## Placement -/

/-- C1. In a resolvable document with exactly one `<jscall>` element, when
every DOM operation succeeds, `PlaceFunctionCall` returns 0 and the anchor's
child list afterwards is its previous child list followed by one new
`<infunction>` element whose attributes are `call`, `returnto`, `args`, in that
order, with the three inputs as values, whatever characters they hold. -/
theorem PlaceFunctionCall_places (env : XpcomResults) (embed : GtkMozEmbed)
    (doc : Document) (anchor : NodePath) (call returnto args : String)
    (hdoc : GetIDOMDocument embed = .ok (some doc))
    (hone : elementsByTagNameList "jscall" 0 doc.childNodes = [anchor])
    (henv : env.allSucceed) :
    ∃ cs doc2, doc.childNodesOf anchor = some cs ∧
      PlaceFunctionCall env embed call returnto args = .ok (0, doc2) ∧
      doc2.childNodesOf anchor = some (cs ++
        [.element "infunction" [("call", call), ("returnto", returnto), ("args", args)] []]) ∧
      doc.appendChildTo
        (.element "infunction" [("call", call), ("returnto", returnto), ("args", args)] [])
        anchor = some doc2 := by
  obtain ⟨cs, doc2, h1, h2, h3, h4, -⟩ :=
    PlaceFunctionCall_appended env embed doc anchor call returnto args hdoc hone
      henv.reachesAppend henv.2.2.2.2.2.2.2.2.2.2.2
  rw [builtElement_allSucceed env call returnto args henv] at h2 h4
  exact ⟨cs, doc2, h1, h3, h4, h2⟩

/-- Witness for C1: the empty mailbox, `call="add"`, `returnto="req-1"`,
`args="1,2"`; the anchor's single child is then
`<infunction call="add" returnto="req-1" args="1,2"/>`. -/
theorem PlaceFunctionCall_places_witness :
    (GetIDOMDocument (GtkMozEmbed.showing emptyMailboxDoc) = .ok (some emptyMailboxDoc) ∧
      elementsByTagNameList "jscall" 0 emptyMailboxDoc.childNodes = [emptyMailboxAnchor] ∧
      okResults.allSucceed) ∧
    (∃ cs doc2, emptyMailboxDoc.childNodesOf emptyMailboxAnchor = some cs ∧
      PlaceFunctionCall okResults (GtkMozEmbed.showing emptyMailboxDoc) "add" "req-1" "1,2"
        = .ok (0, doc2) ∧
      doc2.childNodesOf emptyMailboxAnchor = some (cs ++
        [.element "infunction" [("call", "add"), ("returnto", "req-1"), ("args", "1,2")] []]) ∧
      emptyMailboxDoc.appendChildTo
        (.element "infunction" [("call", "add"), ("returnto", "req-1"), ("args", "1,2")] [])
        emptyMailboxAnchor = some doc2) ∧
    emptyMailboxDoc.childNodesOf emptyMailboxAnchor = some [] ∧
    PlaceFunctionCall okResults (GtkMozEmbed.showing emptyMailboxDoc) "add" "req-1" "1,2"
      = .ok (0, ⟨[.element "html" [] [.element "body" [] [.text "hello",
          .element "jscall" []
            [.element "infunction" [("call", "add"), ("returnto", "req-1"), ("args", "1,2")]
              []]]]]⟩) :=
  ⟨⟨rfl, by decide, by simp [XpcomResults.allSucceed, okResults, NS_FAILED, NS_OK]⟩,
    PlaceFunctionCall_places okResults (GtkMozEmbed.showing emptyMailboxDoc) emptyMailboxDoc
      emptyMailboxAnchor "add" "req-1" "1,2" rfl (by decide)
      (by simp [XpcomResults.allSucceed, okResults, NS_FAILED, NS_OK]),
    rfl, rfl⟩

/-- C3. From a document with exactly one `<jscall>` anchor whose child list is
`cs`, successive placements of the triples `ts`, every DOM operation
succeeding, all return 0, and the anchor's child list at the end is `cs`
followed by one `<infunction>` record per triple, in the order of the calls,
each carrying the call, returnto and args of its own triple; the anchor is
still the only `<jscall>` element. No distinctness of the tokens is needed. -/
theorem placeCalls_appends (env : XpcomResults) (henv : env.allSucceed)
    (ts : List (String × String × String)) :
    ∀ (doc : Document) (anchor : NodePath) (cs : List Node),
      elementsByTagNameList "jscall" 0 doc.childNodes = [anchor] →
      doc.childNodesOf anchor = some cs →
      ∃ doc2, placeCalls env doc ts = .ok (List.replicate ts.length 0, doc2) ∧
        doc2.childNodesOf anchor
          = some (cs ++ ts.map (fun t => infunctionRecord t.1 t.2.1 t.2.2)) ∧
        elementsByTagNameList "jscall" 0 doc2.childNodes = [anchor] := by
  induction ts with
  | nil =>
    intro doc anchor cs hone hcs
    exact ⟨doc, rfl, by simpa using hcs, hone⟩
  | cons t ts ih =>
    intro doc anchor cs hone hcs
    obtain ⟨call, returnto, args⟩ := t
    obtain ⟨cs1, doc1, h1, -, h3, h4, h5⟩ :=
      PlaceFunctionCall_appended env (GtkMozEmbed.showing doc) doc anchor call returnto args
        rfl hone henv.reachesAppend henv.2.2.2.2.2.2.2.2.2.2.2
    rw [builtElement_allSucceed env call returnto args henv] at h4
    rw [hcs] at h1
    cases h1
    obtain ⟨doc2, h6, h7, h8⟩ := ih doc1 anchor _ h5 h4
    refine ⟨doc2, ?_, ?_, h8⟩
    · simp [placeCalls, h3, h6, List.replicate_succ]
    · simpa using h7

/-- Witness for C3: two placements on the empty mailbox. -/
theorem placeCalls_appends_witness :
    (okResults.allSucceed ∧
      elementsByTagNameList "jscall" 0 emptyMailboxDoc.childNodes = [emptyMailboxAnchor] ∧
      emptyMailboxDoc.childNodesOf emptyMailboxAnchor = some []) ∧
    (∃ doc2, placeCalls okResults emptyMailboxDoc
        [("add", "req-1", "1,2"), ("mul", "req-2", "3,4")]
          = .ok (List.replicate 2 0, doc2) ∧
      doc2.childNodesOf emptyMailboxAnchor
        = some ([] ++ [("add", "req-1", "1,2"), ("mul", "req-2", "3,4")].map
            (fun t => infunctionRecord t.1 t.2.1 t.2.2)) ∧
      elementsByTagNameList "jscall" 0 doc2.childNodes = [emptyMailboxAnchor]) ∧
    placeCalls okResults emptyMailboxDoc [("add", "req-1", "1,2"), ("mul", "req-2", "3,4")]
      = .ok ([0, 0], ⟨[.element "html" [] [.element "body" [] [.text "hello",
          .element "jscall" []
            [.element "infunction" [("call", "add"), ("returnto", "req-1"), ("args", "1,2")] [],
             .element "infunction" [("call", "mul"), ("returnto", "req-2"), ("args", "3,4")]
              []]]]]⟩) :=
  ⟨⟨by simp [XpcomResults.allSucceed, okResults, NS_FAILED, NS_OK], by decide, rfl⟩,
    placeCalls_appends okResults (by simp [XpcomResults.allSucceed, okResults, NS_FAILED, NS_OK])
      [("add", "req-1", "1,2"), ("mul", "req-2", "3,4")] emptyMailboxDoc emptyMailboxAnchor []
      (by decide) rfl,
    rfl⟩

/-! ## Success means attached -/

/-- C9. If `PlaceFunctionCall` returns 0 then the document resolved, it held
exactly one `<jscall>` element, the append reported success, and the new
`<infunction>` element is the last child of that anchor, which is still the
only `<jscall>` element; and a run that reaches the append returns 8 when the
append fails. -/
theorem PlaceFunctionCall_success_attached (env : XpcomResults) (embed : GtkMozEmbed)
    (call returnto args : String) :
    (∀ doc2, PlaceFunctionCall env embed call returnto args = .ok (0, doc2) →
      ∃ doc anchor cs attrs, GetIDOMDocument embed = .ok (some doc) ∧
        elementsByTagNameList "jscall" 0 doc.childNodes = [anchor] ∧
        NS_FAILED env.appendChild = false ∧
        builtElement env call returnto args = .element "infunction" attrs [] ∧
        doc.appendChildTo (.element "infunction" attrs []) anchor = some doc2 ∧
        doc.childNodesOf anchor = some cs ∧
        doc2.childNodesOf anchor = some (cs ++ [.element "infunction" attrs []]) ∧
        elementsByTagNameList "jscall" 0 doc2.childNodes = [anchor]) ∧
    (∀ doc anchor, GetIDOMDocument embed = .ok (some doc) →
      elementsByTagNameList "jscall" 0 doc.childNodes = [anchor] →
      env.reachesAppend → NS_FAILED env.appendChild = true →
      PlaceFunctionCall env embed call returnto args = .ok (8, doc)) := by
  constructor
  · intro doc2 h
    rcases hdoc : GetIDOMDocument embed with f | (_ | doc)
    · simp [PlaceFunctionCall, hdoc] at h
    · simp [PlaceFunctionCall, hdoc, deref] at h
    · rw [PlaceFunctionCall_resolved env embed doc call returnto args hdoc] at h
      rcases hone : elementsByTagNameList "jscall" 0 doc.childNodes with _ | ⟨anchor, _ | ⟨b, l⟩⟩
      · rw [hone] at h
        simp only at h
        split_ifs at h <;> simp at h
      · rw [hone] at h
        simp only at h
        split_ifs at h with h1 h2 h4 h5 h6 h7 h8
        all_goals try (simp at h; done)
        simp only [Except.ok.injEq, Prod.mk.injEq, true_and] at h
        have h9 := AppendChild_succeeded _ _ _ _ (by simpa using h8)
        rw [h] at h9
        obtain ⟨attrs, hattrs⟩ := builtElement_shape env call returnto args
        have hmem : anchor ∈ elementsByTagNameList "jscall" 0 doc.childNodes := by simp [hone]
        obtain ⟨cs, doc3, k1, k2, k3⟩ :=
          doc.appendChildTo_of_mem "jscall" (builtElement env call returnto args) anchor hmem
        rw [h9.2] at k2
        cases k2
        refine ⟨doc, anchor, cs, attrs, rfl, hone, h9.1, hattrs, ?_, k1, ?_, ?_⟩
        · rw [← hattrs]; exact h9.2
        · rw [← hattrs]; exact k3
        · rw [doc.appendChildTo_elementsByTagName doc2 "jscall" _ anchor
            (elementsByTagName_builtElement env call returnto args) h9.2, hone]
      · rw [hone] at h
        simp only at h
        split_ifs at h <;> simp at h
  · intro doc anchor hdoc hone henv happend
    rw [PlaceFunctionCall_reachesAppend env embed doc anchor call returnto args hdoc hone henv]
    simp [AppendChild, happend]

/-- Witness for C9: the placement on the empty mailbox returns 0 with the
record attached, and the one whose append fails returns 8. -/
theorem PlaceFunctionCall_success_attached_witness :
    (PlaceFunctionCall okResults (GtkMozEmbed.showing emptyMailboxDoc) "add" "req-1" "1,2"
      = .ok (0, ⟨[.element "html" [] [.element "body" [] [.text "hello",
          .element "jscall" [] [infunctionRecord "add" "req-1" "1,2"]]]]⟩)) ∧
    (∃ doc anchor cs attrs,
      GetIDOMDocument (GtkMozEmbed.showing emptyMailboxDoc) = .ok (some doc) ∧
      elementsByTagNameList "jscall" 0 doc.childNodes = [anchor] ∧
      NS_FAILED okResults.appendChild = false ∧
      builtElement okResults "add" "req-1" "1,2" = .element "infunction" attrs [] ∧
      doc.appendChildTo (.element "infunction" attrs []) anchor
        = some ⟨[.element "html" [] [.element "body" [] [.text "hello",
          .element "jscall" [] [infunctionRecord "add" "req-1" "1,2"]]]]⟩ ∧
      doc.childNodesOf anchor = some cs ∧
      Document.childNodesOf ⟨[.element "html" [] [.element "body" [] [.text "hello",
          .element "jscall" [] [infunctionRecord "add" "req-1" "1,2"]]]]⟩ anchor
        = some (cs ++ [.element "infunction" attrs []]) ∧
      elementsByTagNameList "jscall" 0
        (Document.mk [.element "html" [] [.element "body" [] [.text "hello",
          .element "jscall" [] [infunctionRecord "add" "req-1" "1,2"]]]]).childNodes
        = [anchor]) ∧
    (GetIDOMDocument (GtkMozEmbed.showing emptyMailboxDoc) = .ok (some emptyMailboxDoc) ∧
      elementsByTagNameList "jscall" 0 emptyMailboxDoc.childNodes = [emptyMailboxAnchor] ∧
      appendFailsResults.reachesAppend ∧ NS_FAILED appendFailsResults.appendChild = true) ∧
    PlaceFunctionCall appendFailsResults (GtkMozEmbed.showing emptyMailboxDoc)
      "add" "req-1" "1,2" = .ok (8, emptyMailboxDoc) :=
  ⟨rfl,
    (PlaceFunctionCall_success_attached okResults (GtkMozEmbed.showing emptyMailboxDoc)
      "add" "req-1" "1,2").1 _ rfl,
    ⟨rfl, by decide,
      by simp [XpcomResults.reachesAppend, appendFailsResults, okResults, NS_FAILED, NS_OK],
      by decide⟩,
    (PlaceFunctionCall_success_attached appendFailsResults (GtkMozEmbed.showing emptyMailboxDoc)
      "add" "req-1" "1,2").2 emptyMailboxDoc emptyMailboxAnchor rfl (by decide)
      (by simp [XpcomResults.reachesAppend, appendFailsResults, okResults, NS_FAILED, NS_OK])
      (by decide)⟩

/-- Witness for C2: the page without a mailbox and the page with two. -/
theorem PlaceFunctionCall_cardinality_witness :
    ((GetIDOMDocument (GtkMozEmbed.showing twoMailboxDoc) = .ok (some twoMailboxDoc) ∧
      NS_FAILED okResults.getElementsByTagName = false ∧ okResults.nodesNull = false ∧
      NS_FAILED okResults.getLength = false ∧
      (elementsByTagNameList "jscall" 0 twoMailboxDoc.childNodes).length ≠ 1) ∧
      PlaceFunctionCall okResults (GtkMozEmbed.showing twoMailboxDoc) "add" "req-1" "1,2"
        = .ok (3, twoMailboxDoc)) ∧
    ((elementsByTagNameList "jscall" 0 noMailboxDoc.childNodes).length ≠ 1 ∧
      PlaceFunctionCall okResults (GtkMozEmbed.showing noMailboxDoc) "add" "req-1" "1,2"
        = .ok (3, noMailboxDoc)) :=
  ⟨⟨⟨rfl, by decide, rfl, by decide, by decide⟩,
    PlaceFunctionCall_cardinality okResults (GtkMozEmbed.showing twoMailboxDoc) twoMailboxDoc
      "add" "req-1" "1,2" rfl (by decide) rfl (by decide) (by decide)⟩,
   ⟨by decide,
    PlaceFunctionCall_cardinality okResults (GtkMozEmbed.showing noMailboxDoc) noMailboxDoc
      "add" "req-1" "1,2" rfl (by decide) rfl (by decide) (by decide)⟩⟩

/-- C7 as stated fails: the page without a mailbox and the page with two get
the same status. -/
theorem PlaceFunctionCall_cardinality_not_distinguished :
    ¬ (returnedStatus
        (PlaceFunctionCall okResults (GtkMozEmbed.showing noMailboxDoc) "add" "req-1" "1,2")
      ≠ returnedStatus
        (PlaceFunctionCall okResults (GtkMozEmbed.showing twoMailboxDoc) "add" "req-1" "1,2")) := by
  decide

/-- C7, amended. Anchor lookup has one failure status for both cardinality
violations: a document with no `<jscall>` element and a document with two or
more both get status 3, each tree left as it was. -/
theorem PlaceFunctionCall_zero_and_many_same_status (env : XpcomResults)
    (embed0 embed2 : GtkMozEmbed) (doc0 doc2 : Document) (call returnto args : String)
    (hdoc0 : GetIDOMDocument embed0 = .ok (some doc0))
    (hdoc2 : GetIDOMDocument embed2 = .ok (some doc2))
    (hquery : NS_FAILED env.getElementsByTagName = false) (hnodes : env.nodesNull = false)
    (hlength : NS_FAILED env.getLength = false)
    (hzero : (elementsByTagNameList "jscall" 0 doc0.childNodes).length = 0)
    (hmany : 2 ≤ (elementsByTagNameList "jscall" 0 doc2.childNodes).length) :
    PlaceFunctionCall env embed0 call returnto args = .ok (3, doc0) ∧
    PlaceFunctionCall env embed2 call returnto args = .ok (3, doc2) := by
  constructor
  · simp [PlaceFunctionCall, hdoc0, deref, Document.GetElementsByTagName, GetLength,
      NS_ConvertUTF8toUTF16, hquery, hnodes, hlength, hzero]
  · have h : (elementsByTagNameList "jscall" 0 doc2.childNodes).length ≠ 1 := by omega
    simp [PlaceFunctionCall, hdoc2, deref, Document.GetElementsByTagName, GetLength,
      NS_ConvertUTF8toUTF16, hquery, hnodes, hlength, h]

/-- Witness for the amended C7. -/
theorem PlaceFunctionCall_zero_and_many_same_status_witness :
    ((elementsByTagNameList "jscall" 0 noMailboxDoc.childNodes).length = 0 ∧
      2 ≤ (elementsByTagNameList "jscall" 0 twoMailboxDoc.childNodes).length) ∧
    (PlaceFunctionCall okResults (GtkMozEmbed.showing noMailboxDoc) "add" "req-1" "1,2"
      = .ok (3, noMailboxDoc) ∧
    PlaceFunctionCall okResults (GtkMozEmbed.showing twoMailboxDoc) "add" "req-1" "1,2"
      = .ok (3, twoMailboxDoc)) :=
  ⟨⟨by decide, by decide⟩,
    PlaceFunctionCall_zero_and_many_same_status okResults (GtkMozEmbed.showing noMailboxDoc)
      (GtkMozEmbed.showing twoMailboxDoc) noMailboxDoc twoMailboxDoc "add" "req-1" "1,2"
      rfl rfl (by decide) rfl (by decide) (by decide) (by decide)⟩

/-- C8 as stated fails: on the page without a mailbox the status is 3, not 1. -/
theorem PlaceFunctionCall_absent_anchor_not_one :
    returnedStatus
        (PlaceFunctionCall okResults (GtkMozEmbed.showing noMailboxDoc) "add" "req-1" "1,2")
      = some 3 ∧
    returnedStatus
        (PlaceFunctionCall okResults (GtkMozEmbed.showing noMailboxDoc) "add" "req-1" "1,2")
      ≠ some 1 := by
  decide

/-- C8, amended. In a resolvable document with no `<jscall>` element, the tag
query succeeding, `PlaceFunctionCall` returns status 3 and the tree is
unchanged. -/
theorem PlaceFunctionCall_absent_anchor (env : XpcomResults) (embed : GtkMozEmbed)
    (doc : Document) (call returnto args : String)
    (hdoc : GetIDOMDocument embed = .ok (some doc))
    (hquery : NS_FAILED env.getElementsByTagName = false) (hnodes : env.nodesNull = false)
    (hlength : NS_FAILED env.getLength = false)
    (hzero : elementsByTagNameList "jscall" 0 doc.childNodes = []) :
    PlaceFunctionCall env embed call returnto args = .ok (3, doc) := by
  simp [PlaceFunctionCall, hdoc, deref, Document.GetElementsByTagName, GetLength,
    NS_ConvertUTF8toUTF16, hquery, hnodes, hlength, hzero]

/-- Witness for the amended C8. -/
theorem PlaceFunctionCall_absent_anchor_witness :
    elementsByTagNameList "jscall" 0 noMailboxDoc.childNodes = [] ∧
    PlaceFunctionCall okResults (GtkMozEmbed.showing noMailboxDoc) "add" "req-1" "1,2"
      = .ok (3, noMailboxDoc) :=
  ⟨by decide,
    PlaceFunctionCall_absent_anchor okResults (GtkMozEmbed.showing noMailboxDoc) noMailboxDoc
      "add" "req-1" "1,2" rfl (by decide) rfl (by decide) (by decide)⟩

/-! ## Document resolution -/

/-- C6, the code at the failing inputs. With no browser, no content window or
no document, `PlaceFunctionCall` dereferences a null pointer: it does not
return status 1, it does not return at all. -/
theorem PlaceFunctionCall_unresolved_document (env : XpcomResults)
    (call returnto args : String) :
    PlaceFunctionCall env noBrowserEmbed call returnto args = .error .nullDereference ∧
    PlaceFunctionCall env noWindowEmbed call returnto args = .error .nullDereference ∧
    PlaceFunctionCall env noDocumentEmbed call returnto args = .error .nullDereference ∧
    returnedStatus (PlaceFunctionCall env noDocumentEmbed call returnto args) ≠ some 1 :=
  ⟨rfl, rfl, rfl, by simp [PlaceFunctionCall, GetIDOMDocument, noDocumentEmbed, deref,
    returnedStatus]⟩

/-! ## Attribute assignment -/

/-- C4, the code at the failing inputs. When the assignment of `call`, or of
`returnto`, fails and every other call succeeds, `PlaceFunctionCall` returns 0,
not 6, and the record it appended lacks that attribute. -/
theorem PlaceFunctionCall_call_failure_unreported :
    (NS_FAILED callFailsResults.setAttributeCall = true ∧
      PlaceFunctionCall callFailsResults (GtkMozEmbed.showing emptyMailboxDoc)
        "add" "req-1" "1,2"
        = .ok (0, ⟨[.element "html" [] [.element "body" [] [.text "hello",
            .element "jscall" []
              [.element "infunction" [("returnto", "req-1"), ("args", "1,2")] []]]]]⟩)) ∧
    (NS_FAILED returntoFailsResults.setAttributeReturnto = true ∧
      PlaceFunctionCall returntoFailsResults (GtkMozEmbed.showing emptyMailboxDoc)
        "add" "req-1" "1,2"
        = .ok (0, ⟨[.element "html" [] [.element "body" [] [.text "hello",
            .element "jscall" []
              [.element "infunction" [("call", "add"), ("args", "1,2")] []]]]]⟩)) :=
  ⟨⟨by decide, rfl⟩, ⟨by decide, rfl⟩⟩

/-- C5 as stated fails: when the assignment of `args` fails, the status is 6 and
the anchor has no more children than before. -/
theorem PlaceFunctionCall_args_failure_not_appended :
    ¬ ∃ doc2 cs cs2,
      PlaceFunctionCall argsFailsResults (GtkMozEmbed.showing emptyMailboxDoc)
        "add" "req-1" "1,2" = .ok (6, doc2) ∧
      emptyMailboxDoc.childNodesOf emptyMailboxAnchor = some cs ∧
      doc2.childNodesOf emptyMailboxAnchor = some cs2 ∧
      cs2.length = cs.length + 1 := by
  rintro ⟨doc2, cs, cs2, h1, h2, h3, h4⟩
  have e : PlaceFunctionCall argsFailsResults (GtkMozEmbed.showing emptyMailboxDoc)
      "add" "req-1" "1,2" = .ok (6, emptyMailboxDoc) := rfl
  rw [e] at h1
  simp only [Except.ok.injEq, Prod.mk.injEq, true_and] at h1
  subst h1
  rw [h2] at h3
  cases h3
  omega

/-- C5, amended. When element creation succeeds but the assignment of `args`
fails, `PlaceFunctionCall` returns 6 before the append: nothing is attached and
the tree is unchanged. -/
theorem PlaceFunctionCall_args_failure (env : XpcomResults) (embed : GtkMozEmbed)
    (doc : Document) (anchor : NodePath) (call returnto args : String)
    (hdoc : GetIDOMDocument embed = .ok (some doc))
    (hquery : NS_FAILED env.getElementsByTagName = false) (hnodes : env.nodesNull = false)
    (hlength : NS_FAILED env.getLength = false)
    (hone : elementsByTagNameList "jscall" 0 doc.childNodes = [anchor])
    (hitem : NS_FAILED env.item = false) (hitemNull : env.itemNull = false)
    (hcreate : NS_FAILED env.createElement = false) (helement : env.elementNull = false)
    (hargs : NS_FAILED env.setAttributeArgs = true) :
    PlaceFunctionCall env embed call returnto args = .ok (6, doc) := by
  rw [PlaceFunctionCall_resolved env embed doc call returnto args hdoc]
  simp [hquery, hnodes, hlength, hone, hitem, hitemNull, hcreate, helement, hargs]

/-- Witness for the amended C5. -/
theorem PlaceFunctionCall_args_failure_witness :
    (elementsByTagNameList "jscall" 0 emptyMailboxDoc.childNodes = [emptyMailboxAnchor] ∧
      NS_FAILED argsFailsResults.createElement = false ∧
      NS_FAILED argsFailsResults.setAttributeArgs = true) ∧
    PlaceFunctionCall argsFailsResults (GtkMozEmbed.showing emptyMailboxDoc)
      "add" "req-1" "1,2" = .ok (6, emptyMailboxDoc) :=
  ⟨⟨by decide, by decide, by decide⟩,
    PlaceFunctionCall_args_failure argsFailsResults (GtkMozEmbed.showing emptyMailboxDoc)
      emptyMailboxDoc emptyMailboxAnchor "add" "req-1" "1,2" rfl (by decide) rfl (by decide)
      (by decide) (by decide) rfl (by decide) rfl (by decide)⟩

/-! ## Statuses and atomicity -/

/-- C10. Whenever `PlaceFunctionCall` returns, the status lies in 0..8 and, if
it is not 0, the document tree is the tree before the call; and whenever the
document resolves, `PlaceFunctionCall` does return. -/
theorem PlaceFunctionCall_error_atomic (env : XpcomResults) (embed : GtkMozEmbed)
    (call returnto args : String) :
    (∀ status doc2, PlaceFunctionCall env embed call returnto args = .ok (status, doc2) →
      0 ≤ status ∧ status ≤ 8 ∧ (status ≠ 0 → GetIDOMDocument embed = .ok (some doc2))) ∧
    (∀ doc, GetIDOMDocument embed = .ok (some doc) →
      ∃ status doc2, PlaceFunctionCall env embed call returnto args = .ok (status, doc2)) := by
  have key : ∀ doc, GetIDOMDocument embed = .ok (some doc) →
      ∃ status doc2, PlaceFunctionCall env embed call returnto args = .ok (status, doc2) ∧
        0 ≤ status ∧ status ≤ 8 ∧ (status ≠ 0 → doc2 = doc) := by
    intro doc hdoc
    rw [PlaceFunctionCall_resolved env embed doc call returnto args hdoc]
    rcases elementsByTagNameList "jscall" 0 doc.childNodes with _ | ⟨anchor, _ | ⟨b, l⟩⟩
    · simp only
      split_ifs <;> exact ⟨_, _, rfl, by decide, by decide, fun _ => rfl⟩
    · simp only
      split_ifs with h1 h2 h3 h4 h5 h6 h7
      · exact ⟨_, _, rfl, by decide, by decide, fun _ => rfl⟩
      · exact ⟨_, _, rfl, by decide, by decide, fun _ => rfl⟩
      · exact ⟨_, _, rfl, by decide, by decide, fun _ => rfl⟩
      · exact ⟨_, _, rfl, by decide, by decide, fun _ => rfl⟩
      · exact ⟨_, _, rfl, by decide, by decide, fun _ => rfl⟩
      · exact ⟨_, _, rfl, by decide, by decide, fun _ => rfl⟩
      · exact ⟨_, _, rfl, by decide, by decide, fun _ => AppendChild_failed _ _ _ _ h7⟩
      · exact ⟨_, _, rfl, by decide, by decide, fun h => absurd rfl h⟩
    · simp only
      split_ifs <;> exact ⟨_, _, rfl, by decide, by decide, fun _ => rfl⟩
  constructor
  · intro status doc2 h
    rcases hdoc : GetIDOMDocument embed with f | (_ | doc)
    · simp [PlaceFunctionCall, hdoc] at h
    · simp [PlaceFunctionCall, hdoc, deref] at h
    · obtain ⟨s, d, h1, h2, h3, h4⟩ := key doc hdoc
      rw [h1] at h
      simp only [Except.ok.injEq, Prod.mk.injEq] at h
      obtain ⟨rfl, rfl⟩ := h
      exact ⟨h2, h3, fun hs => by rw [h4 hs]⟩
  · intro doc hdoc
    obtain ⟨s, d, h1, -⟩ := key doc hdoc
    exact ⟨s, d, h1⟩

/-- Witness for C10: a failed append gives status 8 and leaves the tree as it
was; the run on the resolved document returns. -/
theorem PlaceFunctionCall_error_atomic_witness :
    PlaceFunctionCall appendFailsResults (GtkMozEmbed.showing emptyMailboxDoc)
      "add" "req-1" "1,2" = .ok (8, emptyMailboxDoc) ∧
    ((0 : Int) ≤ 8 ∧ (8 : Int) ≤ 8 ∧ ((8 : Int) ≠ 0 →
      GetIDOMDocument (GtkMozEmbed.showing emptyMailboxDoc) = .ok (some emptyMailboxDoc))) ∧
    (∃ status doc2, PlaceFunctionCall appendFailsResults (GtkMozEmbed.showing emptyMailboxDoc)
      "add" "req-1" "1,2" = .ok (status, doc2)) :=
  ⟨rfl,
    (PlaceFunctionCall_error_atomic appendFailsResults (GtkMozEmbed.showing emptyMailboxDoc)
      "add" "req-1" "1,2").1 8 emptyMailboxDoc rfl,
    (PlaceFunctionCall_error_atomic appendFailsResults (GtkMozEmbed.showing emptyMailboxDoc)
      "add" "req-1" "1,2").2 emptyMailboxDoc rfl⟩

end JsCallGlue
